import Mathlib

/-!
# Elasticsearch connectivity exporter: a shallow embedding of `src/main.go`

The program polls a directory of cluster files, probes every node of every
cluster over HTTP and writes the answer into three Prometheus gauge families.

Conventions of the embedding.

* Go `int` is modelled by `Int`; the only place where its width matters is the
  JSON decoder, which rejects a number outside `[-2^63, 2^63)`.
* The text of a JSON document is abstracted to what the scanner of
  `encoding/json` makes of it: either a syntax error or a syntax tree.
  What `main.go` relies on, the reflection-driven copy of that tree into the
  tagged structs, is modelled in full (key matching, kinds, `null`, overflow,
  reuse of the backing array of a slice).
* The outside world (HTTP peers, the file system) is an explicit argument.
* A gauge holds `float64 (n)` for a Go `int` `n`; the embedding stores `n`.
* Goroutines are a pool of tasks; a schedule says which one steps next, so
  every interleaving of the probes and of the single gauge writes is a run.
-/

namespace ESConn

/-! ## JSON syntax trees -/

/-- Syntax tree of a JSON value. A number literal made of an optional minus
sign and digits is `num`; a literal with a fraction or an exponent is
`numOther`. Object members keep their order, duplicates included. -/
inductive Json where
  | null : Json
  | bool (b : Bool) : Json
  | num (n : Int) : Json
  | numOther (lit : String) : Json
  | str (s : String) : Json
  | arr (xs : List Json) : Json
  | obj (kvs : List (String × Json)) : Json

/-- What the scanner of `encoding/json` makes of a byte sequence: `malformed`
when the validity check reports a syntax error (nothing is stored then),
`json v` when the bytes are the JSON value `v`. -/
inductive Document where
  | malformed : Document
  | json (v : Json) : Document

/-! ## The data model of `main.go` -/

/-- ClusterInfo, lines 20-24. -/
structure ClusterInfo where
  Name : String
  Nodes : List String
  deriving DecidableEq, Repr

/-- NodeInfo, lines 26-31. -/
structure NodeInfo where
  Total : Int
  Successful : Int
  Failed : Int
  deriving DecidableEq, Repr

/-- ClusterResponse, lines 33-36. -/
structure ClusterResponse where
  Node : NodeInfo
  deriving DecidableEq, Repr

/-- Line 40. -/
def UpdateInterval : Nat := 15

/-- Line 41. -/
def NetworkTimeoutResult : Int := 1

/-- Zero value of `NodeInfo` (`NodeInfo{}`). -/
def NodeInfo.zero : NodeInfo := ⟨0, 0, 0⟩

/-- Zero value of `ClusterResponse`. -/
def ClusterResponse.zero : ClusterResponse := ⟨NodeInfo.zero⟩

/-- Zero value of `ClusterInfo`; a nil slice is the empty list. -/
def ClusterInfo.zero : ClusterInfo := ⟨"", []⟩

/-! ## `encoding/json`: storing a syntax tree into the tagged structs -/

/-- Smallest Go `int` (64-bit). -/
def minInt : Int := -9223372036854775808

/-- Largest Go `int` (64-bit). -/
def maxInt : Int := 9223372036854775807

/-- Whether `strconv.ParseInt (lit, 10, 64)` accepts the literal of `n`. -/
def fitsInt (n : Int) : Bool := decide (minInt ≤ n) && decide (n ≤ maxInt)

/-- Simple case folding as far as it can reach an ASCII field name: upper-case
ASCII letters, the long s (U+017F) and the Kelvin sign (U+212A). -/
def foldRune (c : Char) : Char :=
  if c = Char.ofNat 0x17F then 's'
  else if c = Char.ofNat 0x212A then 'k'
  else c.toLower

/-- Case-insensitive comparison of an object key with an ASCII field name. -/
def equalFold (key name : String) : Bool :=
  key.toList.map foldRune == name.toList.map foldRune

/-- Field selection in `decodeState.object`: an exact match of the key with a
tag wins, otherwise the first tag that matches case-insensitively. -/
def findField (tags : List String) (key : String) : Option String :=
  match tags.find? (fun t => t == key) with
  | some t => some t
  | none => tags.find? (fun t => equalFold key t)

/-- Store a value into an `int` field: `(new field value, type error)`.
Only an in-range integer literal is stored; `null` is a no-op; everything
else reports an `UnmarshalTypeError` and leaves the field alone. -/
def storeInt (old : Int) : Json → Int × Bool
  | Json.null => (old, false)
  | Json.num n => if fitsInt n then (n, false) else (old, true)
  | _ => (old, true)

/-- Store a value into a `string` field. -/
def storeString (old : String) : Json → String × Bool
  | Json.null => (old, false)
  | Json.str s => (s, false)
  | _ => (old, true)

/-- Store the elements of an array into a `[]string`. The first argument is
the backing array of the slice from its first slot on; a slot never written
holds the empty string. Element `i` is stored into slot `i`, so a `null` or an
element of the wrong kind leaves there what the slot held. -/
def storeElems : List String → List Json → List String × Bool
  | _, [] => ([], false)
  | backing, x :: xs =>
    let r := storeString (backing.headD "") x
    let rest := storeElems backing.tail xs
    (r.1 :: rest.1, r.2 || rest.2)

/-- Store a value into a `[]string` field whose slice holds `old` and whose
backing array goes on with `spare` behind the length of the slice. The result
is the new slice, what its backing array holds behind it, and the type error.
`null` sets the slice to nil and an empty array to a fresh empty slice; a
non-empty array is stored over the backing array and the slice is cut to the
number of elements, the slots behind staying as they were. -/
def storeStrings (old spare : List String) : Json → (List String × List String) × Bool
  | Json.null => (([], []), false)
  | Json.arr [] => (([], []), false)
  | Json.arr xs =>
    let r := storeElems (old ++ spare) xs
    ((r.1, (old ++ spare).drop xs.length), r.2)
  | _ => ((old, spare), true)

/-- One member of an object stored into a `NodeInfo`. -/
def storeNodeInfoMember (acc : NodeInfo × Bool) (kv : String × Json) : NodeInfo × Bool :=
  match findField ["total", "successful", "failed"] kv.1 with
  | some "total" =>
    let r := storeInt acc.1.Total kv.2
    ({ acc.1 with Total := r.1 }, acc.2 || r.2)
  | some "successful" =>
    let r := storeInt acc.1.Successful kv.2
    ({ acc.1 with Successful := r.1 }, acc.2 || r.2)
  | some "failed" =>
    let r := storeInt acc.1.Failed kv.2
    ({ acc.1 with Failed := r.1 }, acc.2 || r.2)
  | _ => acc

/-- Store a value into a `NodeInfo` struct field. -/
def storeNodeInfo (old : NodeInfo) : Json → NodeInfo × Bool
  | Json.null => (old, false)
  | Json.obj kvs => kvs.foldl storeNodeInfoMember (old, false)
  | _ => (old, true)

/-- One member of an object stored into a `ClusterResponse`. -/
def storeClusterResponseMember (acc : ClusterResponse × Bool) (kv : String × Json) :
    ClusterResponse × Bool :=
  match findField ["_nodes"] kv.1 with
  | some _ =>
    let r := storeNodeInfo acc.1.Node kv.2
    (⟨r.1⟩, acc.2 || r.2)
  | none => acc

/-- A `ClusterInfo` while it is decoded: the struct, what the backing array of
`Nodes` holds behind the length of the slice, and whether a type error was
met. -/
structure ClusterInfoState where
  info : ClusterInfo
  spare : List String
  failed : Bool

/-- One member of an object stored into a `ClusterInfo`. -/
def storeClusterInfoMember (acc : ClusterInfoState) (kv : String × Json) :
    ClusterInfoState :=
  match findField ["cluster_name", "node_list"] kv.1 with
  | some "cluster_name" =>
    let r := storeString acc.info.Name kv.2
    { acc with info := { acc.info with Name := r.1 }, failed := acc.failed || r.2 }
  | some "node_list" =>
    let r := storeStrings acc.info.Nodes acc.spare kv.2
    { info := { acc.info with Nodes := r.1.1 }, spare := r.1.2,
      failed := acc.failed || r.2 }
  | _ => acc

/-- Model of `json.Unmarshal (data, &clusterResponse)`: the struct afterwards
and whether an error is returned. A syntax error stores nothing; a type error
is remembered while the remaining members are still stored. -/
def unmarshalClusterResponse (old : ClusterResponse) : Document → ClusterResponse × Bool
  | Document.malformed => (old, true)
  | Document.json Json.null => (old, false)
  | Document.json (Json.obj kvs) => kvs.foldl storeClusterResponseMember (old, false)
  | Document.json _ => (old, true)

/-- Model of `jsonParser.Decode (&clusterInfo)` on the first value of the
stream, the struct being freshly allocated: the struct afterwards and whether
an error is returned. -/
def decodeClusterInfo (old : ClusterInfo) : Document → ClusterInfo × Bool
  | Document.malformed => (old, true)
  | Document.json Json.null => (old, false)
  | Document.json (Json.obj kvs) =>
    let r := kvs.foldl storeClusterInfoMember ⟨old, [], false⟩
    (r.info, r.failed)
  | Document.json _ => (old, true)

/-! ## GetNodeInfo (lines 153-178) -/

/-- Outcome of `netClient.Get (url)` for the URL built from an endpoint: an
error of the client (timeout, refused connection, failed lookup, ...), or a
response whose body, once read, scans as the given document. -/
inductive GetOutcome where
  | error (msg : String) : GetOutcome
  | response (body : Document) : GetOutcome

/-- Observable steps of the program: directory listing, file opening, the
GET of a probe, the read of its body, and the log lines of `main.go`. -/
inductive Event where
  | listDir (dir : String) : Event
  | logListFailed (msg : String) : Event
  | logCheckFile (name : String) : Event
  | openFile (path : String) : Event
  | logLoadFailed (name : String) (msg : String) : Event
  | get (endpoint : String) : Event
  | logGetFailed (msg : String) : Event
  | readBody : Event
  | logParseFailed : Event
  deriving DecidableEq, Repr

/-- GetNodeInfo: the returned `NodeInfo` and the steps taken. `netGet` gives
the outcome of the GET for each endpoint. The error of `ReadAll` is dropped,
so the body is whatever was read. After a response the code tests the error of
the GET again (nil there), so the error of `Unmarshal` is neither logged nor
returned and `logParseFailed` is never emitted. -/
def GetNodeInfo (netGet : String → GetOutcome) (endpoint : String) : NodeInfo × List Event :=
  let nodeInfo := NodeInfo.zero
  let clusterResponse := ClusterResponse.zero
  match netGet endpoint with
  | GetOutcome.error msg =>
    ({ nodeInfo with Failed := NetworkTimeoutResult },
      [Event.get endpoint, Event.logGetFailed msg])
  | GetOutcome.response body =>
    let r := unmarshalClusterResponse clusterResponse body
    (r.1.Node, [Event.get endpoint, Event.readBody])

/-! ## LoadConfig (lines 180-193) -/

/-- A file as `json.Decoder` reads it. `first` is what the scanner makes of
the bytes up to the end of the first value (`malformed` when no complete value
can be read, as for an empty file); `trailing` tells whether anything but
white space follows that value. `Decode` is called once, so what follows the
first value is never looked at. -/
structure Stream where
  first : Document
  trailing : Bool

/-- Whether the file as a whole is one well-formed JSON document. -/
def Stream.wellFormed (s : Stream) : Bool :=
  match s.first with
  | Document.malformed => false
  | Document.json _ => !s.trailing

/-- LoadConfig: `Except.error` stands for `(nil, err)`, `Except.ok c` for
`(&clusterInfo, nil)`. `openFile` gives, for a path, the error of `os.Open`
or the stream the decoder reads from the file. The value returned by
`Decode` is dropped. -/
def LoadConfig (openFile : String → Except String Stream) (file : String) :
    Except String ClusterInfo :=
  let clusterInfo := ClusterInfo.zero
  match openFile file with
  | Except.error err => Except.error err
  | Except.ok content => Except.ok (decodeClusterInfo clusterInfo content.first).1

/-! ## GetFileList (lines 195-207) -/

/-- Entry of a directory, as much of `os.FileInfo` as the program reads. -/
structure FileInfo where
  Name : String
  IsDir : Bool
  deriving DecidableEq, Repr

/-- What a directory path does: `os.Open` fails, or it succeeds and
`Readdir (-1)` fails, or the entries are listed. -/
inductive DirOutcome where
  | openFails (msg : String) : DirOutcome
  | readFails (msg : String) : DirOutcome
  | entries (files : List FileInfo) : DirOutcome

/-- Result of a call that may end the process through `log.Fatal`. -/
inductive Call (α : Type) where
  | fatal (msg : String) : Call α
  | ret (a : α) : Call α

/-- GetFileList: a failed `os.Open` ends the process (`log.Fatal`, line 199);
a failed `Readdir` is returned to the caller (line 204). -/
def GetFileList (readDir : String → DirOutcome) (dir : String) :
    Call (Except String (List FileInfo)) :=
  match readDir dir with
  | DirOutcome.openFails msg => Call.fatal msg
  | DirOutcome.readFails msg => Call.ret (Except.error msg)
  | DirOutcome.entries files => Call.ret (Except.ok files)

/-! ## `net.SplitHostPort` -/

/-- Reasons for which `net.SplitHostPort` rejects an address. -/
inductive AddrError where
  | missingPort : AddrError
  | tooManyColons : AddrError
  | missingCloseBracket : AddrError
  | unexpectedOpenBracket : AddrError
  | unexpectedCloseBracket : AddrError
  deriving DecidableEq, Repr

/-- Index of the first occurrence of `c`, if any. -/
def indexByte (s : List Char) (c : Char) : Option Nat :=
  if s.indexOf c < s.length then some (s.indexOf c) else none

/-- Index of the last occurrence of `c`, if any. -/
def lastIndex (s : List Char) (c : Char) : Option Nat :=
  match indexByte s.reverse c with
  | none => none
  | some j => some (s.length - 1 - j)

/-- Model of `net.SplitHostPort`, statement by statement. All delimiters are
ASCII, so splitting the characters agrees with splitting the bytes. -/
def SplitHostPort (hostport : String) : Except AddrError (String × String) :=
  let s := hostport.toList
  match lastIndex s ':' with
  | none => Except.error AddrError.missingPort
  | some i =>
    let bracket : Except AddrError (List Char × Nat × Nat) :=
      if s.head? = some '[' then
        match indexByte s ']' with
        | none => Except.error AddrError.missingCloseBracket
        | some e =>
          if e + 1 = s.length then Except.error AddrError.missingPort
          else if e + 1 = i then Except.ok ((s.take e).drop 1, 1, e + 1)
          else if s.get? (e + 1) = some ':' then Except.error AddrError.tooManyColons
          else Except.error AddrError.missingPort
      else
        let host := s.take i
        if (indexByte host ':').isSome then Except.error AddrError.tooManyColons
        else Except.ok (host, 0, 0)
    match bracket with
    | Except.error err => Except.error err
    | Except.ok (host, j, k) =>
      if (indexByte (s.drop j) '[').isSome then
        Except.error AddrError.unexpectedOpenBracket
      else if (indexByte (s.drop k) ']').isSome then
        Except.error AddrError.unexpectedCloseBracket
      else Except.ok (String.mk host, String.mk (s.drop (i + 1)))

/-! ## The gauge families (lines 44-72) -/

/-- Model of `prometheus.GaugeVec`: the label names fixed by `NewGaugeVec`
and, per tuple of label values (in the order of the names), the value last
set. The stored `n` stands for `float64 (n)`. -/
structure GaugeVec where
  variableLabels : List String
  metrics : List String → Option Int

/-- Model of `promauto.NewGaugeVec (opts, labelNames)`: the names are the value the
slice has at the time of the call; no child exists yet. -/
def NewGaugeVec (labelNames : List String) : GaugeVec :=
  ⟨labelNames, fun _ => none⟩

/-- Model of `prometheus.Labels`, a map from label name to label value. -/
abbrev Labels := List (String × String)

/-- The values of the declared names in a label map, in the order of the
names; `none` as soon as a declared name is not a key of the map. -/
def labelValues (labels : Labels) : List String → Option (List String)
  | [] => some []
  | name :: rest =>
    match labels.lookup name with
    | none => none
    | some value =>
      match labelValues labels rest with
      | none => none
      | some values => some (value :: values)

/-- Label resolution of `GaugeVec.With`: the number of labels must equal the
number of declared names and every declared name must be a key of the map;
the child is addressed by the values in the order of the declared names.
`none` is the error on which `With` panics. -/
def GaugeVec.resolve (v : GaugeVec) (labels : Labels) : Option (List String) :=
  if labels.length ≠ v.variableLabels.length then none
  else labelValues labels v.variableLabels

/-- Model of `Gauge.Set` on the child addressed by `key`. -/
def GaugeVec.set (v : GaugeVec) (key : List String) (x : Int) : GaugeVec :=
  { v with metrics := fun k => if k = key then some x else v.metrics k }

/-- The package-level variables that the polling loop reads and writes. -/
structure Globals where
  prometheusLabels : List String
  esConnectivityFailedGauge : GaugeVec
  esConnectivityTotalGauge : GaugeVec
  esConnectivitySuccessfulGauge : GaugeVec

/-- Package initialisation, lines 49-71: `prometheusLabels` is initialised
first (the gauges depend on it), then each family is declared with it. -/
def initGlobals : Globals :=
  let prometheusLabels := ["instance", "cluster"]
  { prometheusLabels := prometheusLabels
    esConnectivityFailedGauge := NewGaugeVec prometheusLabels
    esConnectivityTotalGauge := NewGaugeVec prometheusLabels
    esConnectivitySuccessfulGauge := NewGaugeVec prometheusLabels }

/-! ## UpdateNode (lines 133-151) -/

/-- How a piece of the program ends: it returns, a goroutine panics (which
ends the process), or `log.Fatal` ends the process. -/
inductive Status where
  | returned : Status
  | panicked : Status
  | exited : Status
  deriving DecidableEq, Repr

/-- State of the package variables, the steps taken, and how it ended. -/
structure Step where
  globals : Globals
  events : List Event
  status : Status

/-- The label map built at lines 143-146. -/
def nodeLabels (ip clusterName : String) : Labels :=
  [("ip", ip), ("cluster", clusterName)]

/-- UpdateNode. -/
def UpdateNode (netGet : String → GetOutcome) (g : Globals) (node clusterName : String) :
    Step :=
  match SplitHostPort node with
  | Except.error _ => ⟨g, [], Status.returned⟩
  | Except.ok (ip, _) =>
    let probe := GetNodeInfo netGet node
    let nodeInfo := probe.1
    let g1 := { g with prometheusLabels := ["ip", "cluster"] }
    let labels := nodeLabels ip clusterName
    match g1.esConnectivityFailedGauge.resolve labels with
    | none => ⟨g1, probe.2, Status.panicked⟩
    | some kf =>
      let g2 := { g1 with
        esConnectivityFailedGauge := g1.esConnectivityFailedGauge.set kf nodeInfo.Failed }
      match g2.esConnectivitySuccessfulGauge.resolve labels with
      | none => ⟨g2, probe.2, Status.panicked⟩
      | some ks =>
        let g3 := { g2 with
          esConnectivitySuccessfulGauge :=
            g2.esConnectivitySuccessfulGauge.set ks nodeInfo.Successful }
        match g3.esConnectivityTotalGauge.resolve labels with
        | none => ⟨g3, probe.2, Status.panicked⟩
        | some kt =>
          ⟨{ g3 with esConnectivityTotalGauge := g3.esConnectivityTotalGauge.set kt nodeInfo.Total },
            probe.2, Status.returned⟩

/-! ## UpdateElasticSearchStatus (lines 100-131) and its goroutines -/

/-- The outside world at one moment. -/
structure World where
  readDir : String → DirOutcome
  openFile : String → Except String Stream
  netGet : String → GetOutcome

/-- The three gauge families, in the order in which UpdateNode writes them. -/
inductive Family where
  | failed : Family
  | successful : Family
  | total : Family
  deriving DecidableEq, Repr

/-- A goroutine that was launched and has not ended, with what it does next:
`file` is the function literal of lines 112-128 before its first statement,
`node` is `UpdateNode` before its first statement, `write` is `UpdateNode`
after the probe, about to call `With` on the family `next`. -/
inductive Task where
  | file (file : FileInfo) : Task
  | node (node clusterName : String) : Task
  | write (ip clusterName : String) (nodeInfo : NodeInfo) (next : Family) : Task
  deriving DecidableEq, Repr

/-- Whether the process lives, and how it ended: a panic in any goroutine and
`log.Fatal` both end every goroutine. -/
inductive Life where
  | running : Life
  | panicked : Life
  | exited : Life
  deriving DecidableEq, Repr

/-- State of the process: the package variables, the steps taken so far, the
goroutines in flight and whether the process lives. -/
structure Proc where
  globals : Globals
  events : List Event
  pool : List Task
  life : Life

/-- The process when `go UpdateElasticSearchStatus (...)` starts. -/
def Proc.start : Proc := ⟨initGlobals, [], [], Life.running⟩

/-- The function literal of lines 112-128 on one directory entry: its steps
and the goroutines it launches, one `go UpdateNode (...)` per node. -/
def checkFile (w : World) (targetFolder : String) (file : FileInfo) :
    List Event × List Task :=
  if file.IsDir then ([Event.logCheckFile file.Name], [])
  else
    let filePath := targetFolder ++ file.Name
    match LoadConfig w.openFile filePath with
    | Except.error err =>
      ([Event.logCheckFile file.Name, Event.openFile filePath,
        Event.logLoadFailed file.Name err], [])
    | Except.ok clusterInfo =>
      ([Event.logCheckFile file.Name, Event.openFile filePath],
        clusterInfo.Nodes.map (fun node => Task.node node clusterInfo.Name))

/-- Lines 135-139 of UpdateNode in a goroutine: split the address, probe the
node. What is left of the goroutine is the write of the three gauges. -/
def startNode (w : World) (node clusterName : String) : List Event × List Task :=
  match SplitHostPort node with
  | Except.error _ => ([], [])
  | Except.ok (ip, _) =>
    let probe := GetNodeInfo w.netGet node
    (probe.2, [Task.write ip clusterName probe.1 Family.failed])

/-- One of the lines 147-149: `With (labels)` on a family, then `Set`.
`none` when `With` panics. -/
def writeGauge (g : Globals) (labels : Labels) (nodeInfo : NodeInfo) :
    Family → Option Globals
  | Family.failed =>
    match g.esConnectivityFailedGauge.resolve labels with
    | none => none
    | some k => some { g with
        esConnectivityFailedGauge := g.esConnectivityFailedGauge.set k nodeInfo.Failed }
  | Family.successful =>
    match g.esConnectivitySuccessfulGauge.resolve labels with
    | none => none
    | some k => some { g with
        esConnectivitySuccessfulGauge :=
          g.esConnectivitySuccessfulGauge.set k nodeInfo.Successful }
  | Family.total =>
    match g.esConnectivityTotalGauge.resolve labels with
    | none => none
    | some k => some { g with
        esConnectivityTotalGauge := g.esConnectivityTotalGauge.set k nodeInfo.Total }

/-- The family written after the given one, if any. -/
def Family.next : Family → Option Family
  | Family.failed => some Family.successful
  | Family.successful => some Family.total
  | Family.total => none

/-- The package variables when a goroutine enters the write of a family: the
assignment of line 142 comes before the first `With`. -/
def enterWrite (g : Globals) : Family → Globals
  | Family.failed => { g with prometheusLabels := ["ip", "cluster"] }
  | _ => g

/-- Body of the ticker loop, lines 104-129: list the directory and launch one
goroutine per entry. The loop does not wait for them. -/
def tick (w : World) (targetFolder : String) (p : Proc) : Proc :=
  match GetFileList w.readDir targetFolder with
  | Call.fatal _ =>
    { p with events := p.events ++ [Event.listDir targetFolder], life := Life.exited }
  | Call.ret (Except.error err) =>
    { p with events := p.events ++ [Event.listDir targetFolder, Event.logListFailed err] }
  | Call.ret (Except.ok listFile) =>
    { p with events := p.events ++ [Event.listDir targetFolder],
             pool := p.pool ++ listFile.map Task.file }

/-- The goroutine at position `i` of the pool takes its next step. -/
def runTask (w : World) (targetFolder : String) (p : Proc) (i : Nat) : Proc :=
  match p.pool[i]? with
  | none => p
  | some (Task.file file) =>
    let r := checkFile w targetFolder file
    { p with events := p.events ++ r.1, pool := p.pool.eraseIdx i ++ r.2 }
  | some (Task.node node clusterName) =>
    let r := startNode w node clusterName
    { p with events := p.events ++ r.1, pool := p.pool.eraseIdx i ++ r.2 }
  | some (Task.write ip clusterName nodeInfo family) =>
    let g1 := enterWrite p.globals family
    match writeGauge g1 (nodeLabels ip clusterName) nodeInfo family with
    | none => { p with globals := g1, life := Life.panicked }
    | some g2 =>
      match family.next with
      | some family2 =>
        { p with globals := g2,
                 pool := p.pool.set i (Task.write ip clusterName nodeInfo family2) }
      | none => { p with globals := g2, pool := p.pool.eraseIdx i }

/-- What the scheduler lets happen next: the ticker fires and the polling loop
runs its body, or the goroutine at a position of the pool takes a step. -/
inductive Action where
  | tick : Action
  | go (i : Nat) : Action
  deriving DecidableEq, Repr

/-- One step of the process; nothing happens once it has ended. -/
def Proc.step (targetFolder : String) (p : Proc) (w : World) (a : Action) : Proc :=
  match p.life with
  | Life.running =>
    match a with
    | Action.tick => tick w targetFolder p
    | Action.go i => runTask w targetFolder p i
  | _ => p

/-- UpdateElasticSearchStatus and the goroutines it launches, along a
schedule: each entry is the world at that moment and what happens next. -/
def UpdateElasticSearchStatus (targetFolder : String) : Proc → List (World × Action) → Proc
  | p, [] => p
  | p, (w, a) :: rest => UpdateElasticSearchStatus targetFolder (p.step targetFolder w a) rest

/-- The body the spec expects from `/_cluster/stats`:
an object with the member `_nodes` holding `total`, `successful`, `failed`. -/
def statsBody (t s f : Int) : Document :=
  Document.json (Json.obj [("_nodes",
    Json.obj [("total", Json.num t), ("successful", Json.num s), ("failed", Json.num f)])])

/-- The content of a cluster file: the JSON encoding of a name and a node list,
an object with the members `cluster_name` and `node_list`. -/
def clusterFile (n : String) (ns : List String) : Document :=
  Document.json (Json.obj [("cluster_name", Json.str n),
    ("node_list", Json.arr (ns.map Json.str))])

/-- The label names the families of `g` are declared with are those of package
initialisation. -/
def declaredAtInit (g : Globals) : Prop :=
  g.esConnectivityFailedGauge.variableLabels = ["instance", "cluster"] ∧
  g.esConnectivitySuccessfulGauge.variableLabels = ["instance", "cluster"] ∧
  g.esConnectivityTotalGauge.variableLabels = ["instance", "cluster"]

/-- No family of `g` holds a sample. -/
def noSample (g : Globals) : Prop :=
  ∀ key, g.esConnectivityFailedGauge.metrics key = none ∧
    g.esConnectivitySuccessfulGauge.metrics key = none ∧
    g.esConnectivityTotalGauge.metrics key = none

/-- The scenario of the spec: the directory holds one file for cluster c1 with
the nodes 10.0.0.1:9200, which answers total 3, successful 3, failed 0, and
10.0.0.2:9200, which cannot be reached. -/
def scenarioWorld : World where
  readDir := fun _ => DirOutcome.entries [⟨"c1.json", false⟩]
  openFile := fun _ =>
    Except.ok ⟨clusterFile "c1" ["10.0.0.1:9200", "10.0.0.2:9200"], false⟩
  netGet := fun endpoint =>
    if endpoint = "10.0.0.1:9200" then GetOutcome.response (statsBody 3 3 0)
    else GetOutcome.error "connection refused"

/-- One schedule of the scenario: the tick, the goroutine of the file, the
probes of both nodes, then the first write. -/
def scenarioSchedule : List (World × Action) :=
  [(scenarioWorld, Action.tick), (scenarioWorld, Action.go 0), (scenarioWorld, Action.go 0),
    (scenarioWorld, Action.go 0), (scenarioWorld, Action.go 0)]

/-- The last element of a list of integers, `d` for the empty list. -/
def lastOr : Int → List Int → Int
  | d, [] => d
  | _, n :: rest => lastOr n rest

/-- The integer a member holds for the field `tag` of `NodeInfo`, if the
decoder stores one: the key selects the field and the value is an integer
literal within the range of `int`. -/
def memberInt (tag : String) (kv : String × Json) : List Int :=
  if findField ["total", "successful", "failed"] kv.1 = some tag then
    match kv.2 with
    | Json.num n => if fitsInt n then [n] else []
    | _ => []
  else []

/-- The integers a member of the body holds for the field `tag`: those of its
value when the key selects `_nodes` and the value is an object. -/
def bodyMemberInts (tag : String) (kv : String × Json) : List Int :=
  match findField ["_nodes"] kv.1, kv.2 with
  | some _, Json.obj members => members.flatMap (memberInt tag)
  | _, _ => []

/-- The integers that the `_nodes` objects of a body hold for the field `tag`,
in the order of the text. -/
def nodesInts (tag : String) : Document → List Int
  | Document.json (Json.obj kvs) => kvs.flatMap (bodyMemberInts tag)
  | _ => []

/-- The last integer a body holds for a field, 0 when it holds none. -/
def lastInt (tag : String) (body : Document) : Int :=
  lastOr 0 (nodesInts tag body)

/-- The field of a `NodeInfo` that a tag names. -/
def NodeInfo.field (info : NodeInfo) (tag : String) : Int :=
  if tag = "total" then info.Total
  else if tag = "successful" then info.Successful
  else info.Failed

/-! ## Theorems -/

/-- C1: when the GET fails at transport level, whatever the node address and
the error, GetNodeInfo returns total 0, successful 0, failed 1 and reads no
response body. -/
theorem GetNodeInfo_transport_error (netGet : String → GetOutcome) (endpoint msg : String)
    (h : netGet endpoint = GetOutcome.error msg) :
    (GetNodeInfo netGet endpoint).1 = ⟨0, 0, 1⟩ ∧
      Event.readBody ∉ (GetNodeInfo netGet endpoint).2 := by
  simp [GetNodeInfo, h, NodeInfo.zero, NetworkTimeoutResult]

/-- Witness of C1: a peer that refuses the connection. -/
theorem GetNodeInfo_transport_error_witness :
    (GetNodeInfo (fun _ => GetOutcome.error "connection refused") "10.0.0.2:9200").1
        = ⟨0, 0, 1⟩ ∧
      Event.readBody ∉
        (GetNodeInfo (fun _ => GetOutcome.error "connection refused") "10.0.0.2:9200").2 :=
  GetNodeInfo_transport_error (fun _ => GetOutcome.error "connection refused")
    "10.0.0.2:9200" "connection refused" rfl

/-- Storing an array of strings gives the strings, whatever the backing array
held, with no type error. -/
theorem storeElems_strings (backing ns : List String) :
    storeElems backing (ns.map Json.str) = (ns, false) := by
  induction ns generalizing backing with
  | nil => rfl
  | cons n ns ih =>
    have h : storeElems backing (Json.str n :: ns.map Json.str)
        = (n :: (storeElems backing.tail (ns.map Json.str)).1,
            false || (storeElems backing.tail (ns.map Json.str)).2) := rfl
    simp [h, ih]

/-- Storing an array of strings into a nil slice gives the strings, with no
type error. -/
theorem storeStrings_strings (ns : List String) :
    (storeStrings [] [] (Json.arr (ns.map Json.str))).1.1 = ns ∧
      (storeStrings [] [] (Json.arr (ns.map Json.str))).2 = false := by
  cases ns with
  | nil => exact ⟨rfl, rfl⟩
  | cons n ns =>
    have h : storeStrings [] [] (Json.arr ((n :: ns).map Json.str))
        = (((storeElems [] ((n :: ns).map Json.str)).1,
            ([] : List String).drop ((n :: ns).map Json.str).length),
            (storeElems [] ((n :: ns).map Json.str)).2) := rfl
    rw [h, storeElems_strings]
    exact ⟨rfl, rfl⟩

/-- The GET events of a probe name the probed endpoint. -/
theorem GetNodeInfo_get_event (netGet : String → GetOutcome) (endpoint a : String)
    (h : Event.get a ∈ (GetNodeInfo netGet endpoint).2) : a = endpoint := by
  unfold GetNodeInfo at h
  cases hg : netGet endpoint <;> simp [hg] at h <;> exact h

/-- Counterexample to C2 as stated: the integer 2^63 in the body is not
returned, the field keeps its zero value. -/
theorem GetNodeInfo_success_counterexample :
    (GetNodeInfo (fun _ => GetOutcome.response (statsBody 9223372036854775808 8 1))
        "10.0.0.1:9200").1 = ⟨0, 8, 1⟩ ∧
      (GetNodeInfo (fun _ => GetOutcome.response (statsBody 9223372036854775808 8 1))
        "10.0.0.1:9200").1 ≠ ⟨9223372036854775808, 8, 1⟩ := by
  decide

/-- C2 (amended): when the GET succeeds and the body is the document with
`_nodes` holding total t, successful s, failed f, each within the range of a
Go int, GetNodeInfo returns exactly total t, successful s, failed f. -/
theorem GetNodeInfo_success (netGet : String → GetOutcome) (endpoint : String) (t s f : Int)
    (ht : fitsInt t = true) (hs : fitsInt s = true) (hf : fitsInt f = true)
    (h : netGet endpoint = GetOutcome.response (statsBody t s f)) :
    (GetNodeInfo netGet endpoint).1 = ⟨t, s, f⟩ := by
  simp [GetNodeInfo, h, statsBody, unmarshalClusterResponse, storeClusterResponseMember,
    storeNodeInfo, storeNodeInfoMember, storeInt, ht, hs, hf, findField, ClusterResponse.zero,
    NodeInfo.zero]

/-- Witness of C2: total 9, successful 8, failed 1. -/
theorem GetNodeInfo_success_witness :
    (GetNodeInfo (fun _ => GetOutcome.response (statsBody 9 8 1)) "10.0.0.1:9200").1
      = ⟨9, 8, 1⟩ :=
  GetNodeInfo_success (fun _ => GetOutcome.response (statsBody 9 8 1)) "10.0.0.1:9200" 9 8 1
    (by decide) (by decide) (by decide) rfl

/-- A stream that starts with the encoding of a name and a node list loads as
that name and that list. -/
theorem LoadConfig_clusterFile (openFile : String → Except String Stream)
    (file n : String) (ns : List String) (content : Stream)
    (h : openFile file = Except.ok content) (hc : content.first = clusterFile n ns) :
    LoadConfig openFile file = Except.ok ⟨n, ns⟩ := by
  have hs := (storeStrings_strings ns).1
  simp [LoadConfig, h, hc, clusterFile, decodeClusterInfo, storeClusterInfoMember, findField,
    storeString, hs, ClusterInfo.zero]

/-- C3: LoadConfig on a readable file whose content is the JSON encoding of
cluster name n and node list ns returns no error and the descriptor with
Name n and Nodes ns, same order and length. -/
theorem LoadConfig_roundtrip (openFile : String → Except String Stream)
    (file n : String) (ns : List String) (content : Stream)
    (h : openFile file = Except.ok content) (hc : content.first = clusterFile n ns) :
    LoadConfig openFile file = Except.ok ⟨n, ns⟩ :=
  LoadConfig_clusterFile openFile file n ns content h hc

/-- Witness of C3: the file of cluster c1 with two nodes. -/
theorem LoadConfig_roundtrip_witness :
    LoadConfig
      (fun _ => Except.ok ⟨clusterFile "c1" ["10.0.0.1:9200", "10.0.0.2:9200"], false⟩)
      "conf/c1.json" = Except.ok ⟨"c1", ["10.0.0.1:9200", "10.0.0.2:9200"]⟩ :=
  LoadConfig_roundtrip _ "conf/c1.json" "c1" ["10.0.0.1:9200", "10.0.0.2:9200"]
    ⟨clusterFile "c1" ["10.0.0.1:9200", "10.0.0.2:9200"], false⟩ rfl rfl

/-- The last element of an append. -/
theorem lastOr_append (d : Int) (l1 l2 : List Int) :
    lastOr d (l1 ++ l2) = lastOr (lastOr d l1) l2 := by
  induction l1 generalizing d with
  | nil => rfl
  | cons n rest ih => exact ih n

/-- A member stored into a `NodeInfo` changes a field exactly when it holds an
integer for it. -/
theorem storeNodeInfoMember_field (tag : String)
    (htag : tag = "total" ∨ tag = "successful" ∨ tag = "failed")
    (acc : NodeInfo × Bool) (kv : String × Json) :
    (storeNodeInfoMember acc kv).1.field tag = lastOr (acc.1.field tag) (memberInt tag kv) := by
  have h1 : ("successful" : String) ≠ "total" := by decide
  have h2 : ("failed" : String) ≠ "total" := by decide
  have h3 : ("failed" : String) ≠ "successful" := by decide
  unfold storeNodeInfoMember memberInt
  split
  next h =>
    rcases htag with rfl | rfl | rfl <;> cases hv : kv.2 <;>
      simp [h, NodeInfo.field, storeInt, lastOr, h1, h2, h3, h1.symm, h2.symm, h3.symm]
    all_goals (split <;> simp_all [lastOr])
  next h =>
    rcases htag with rfl | rfl | rfl <;> cases hv : kv.2 <;>
      simp [h, NodeInfo.field, storeInt, lastOr, h1, h2, h3, h1.symm, h2.symm, h3.symm]
    all_goals (split <;> simp_all [lastOr])
  next h =>
    rcases htag with rfl | rfl | rfl <;> cases hv : kv.2 <;>
      simp [h, NodeInfo.field, storeInt, lastOr, h1, h2, h3, h1.symm, h2.symm, h3.symm]
    all_goals (split <;> simp_all [lastOr])
  next ht hs hf =>
    have hne : findField ["total", "successful", "failed"] kv.1 ≠ some tag := by
      rcases htag with rfl | rfl | rfl
      · exact ht
      · exact hs
      · exact hf
    simp [hne, lastOr]

/-- The members of an object stored into a `NodeInfo` leave in a field the last
integer they hold for it. -/
theorem foldl_storeNodeInfoMember_field (tag : String)
    (htag : tag = "total" ∨ tag = "successful" ∨ tag = "failed")
    (kvs : List (String × Json)) (acc : NodeInfo × Bool) :
    (kvs.foldl storeNodeInfoMember acc).1.field tag
      = lastOr (acc.1.field tag) (kvs.flatMap (memberInt tag)) := by
  induction kvs generalizing acc with
  | nil => rfl
  | cons kv rest ih =>
    rw [List.foldl_cons, ih, storeNodeInfoMember_field tag htag, List.flatMap_cons,
      lastOr_append]

/-- A member of the body stored into a `ClusterResponse` leaves in a field the
last integer it holds for it. -/
theorem storeClusterResponseMember_field (tag : String)
    (htag : tag = "total" ∨ tag = "successful" ∨ tag = "failed")
    (acc : ClusterResponse × Bool) (kv : String × Json) :
    (storeClusterResponseMember acc kv).1.Node.field tag
      = lastOr (acc.1.Node.field tag) (bodyMemberInts tag kv) := by
  unfold storeClusterResponseMember bodyMemberInts
  cases hf : findField ["_nodes"] kv.1 with
  | none => simp [lastOr]
  | some t =>
    cases hv : kv.2 with
    | obj members =>
      simp only [storeNodeInfo]
      exact foldl_storeNodeInfoMember_field tag htag members (acc.1.Node, false)
    | _ => simp [storeNodeInfo, lastOr]

/-- The members of a body stored into a `ClusterResponse` leave in a field the
last integer they hold for it. -/
theorem foldl_storeClusterResponseMember_field (tag : String)
    (htag : tag = "total" ∨ tag = "successful" ∨ tag = "failed")
    (kvs : List (String × Json)) (acc : ClusterResponse × Bool) :
    (kvs.foldl storeClusterResponseMember acc).1.Node.field tag
      = lastOr (acc.1.Node.field tag) (kvs.flatMap (bodyMemberInts tag)) := by
  induction kvs generalizing acc with
  | nil => rfl
  | cons kv rest ih =>
    rw [List.foldl_cons, ih, storeClusterResponseMember_field tag htag, List.flatMap_cons,
      lastOr_append]

/-- After `Unmarshal` into a zero `ClusterResponse`, a field holds the last
integer the body holds for it, and 0 when the body holds none. -/
theorem unmarshalClusterResponse_field (tag : String)
    (htag : tag = "total" ∨ tag = "successful" ∨ tag = "failed") (body : Document) :
    (unmarshalClusterResponse ClusterResponse.zero body).1.Node.field tag
      = lastInt tag body := by
  have hz : ClusterResponse.zero.Node.field tag = 0 := by
    simp [ClusterResponse.zero, NodeInfo.zero, NodeInfo.field]
  cases body with
  | malformed => simpa [unmarshalClusterResponse, lastInt, nodesInts, lastOr] using hz
  | json v =>
    cases v with
    | obj kvs =>
      have h := foldl_storeClusterResponseMember_field tag htag kvs (ClusterResponse.zero, false)
      rw [hz] at h
      simpa [unmarshalClusterResponse, lastInt, nodesInts] using h
    | _ => simpa [unmarshalClusterResponse, lastInt, nodesInts, lastOr] using hz

/-- Counterexample to C8 as stated: the body is valid JSON whose member
`total` is a string, so decoding fails with a type error, yet the member
`failed` is stored and the result is not zero. -/
theorem GetNodeInfo_decode_failure_counterexample :
    (unmarshalClusterResponse ClusterResponse.zero
        (Document.json (Json.obj [("_nodes",
          Json.obj [("total", Json.str "x"), ("failed", Json.num 3)])]))).2 = true ∧
      (GetNodeInfo (fun _ => GetOutcome.response
        (Document.json (Json.obj [("_nodes",
          Json.obj [("total", Json.str "x"), ("failed", Json.num 3)])])))
        "10.0.0.1:9200").1 = ⟨0, 0, 3⟩ := by
  decide

/-- C8 (amended): for every received response, whether or not its body
decodes, GetNodeInfo returns in each of total, successful and failed the last
integer within the range of an int that a `_nodes` object of the body holds
for that field, and 0 when there is none; so the result is the zero value
whenever the body holds no such integer, as when it is not valid JSON, is not
an object, or has a `_nodes` member that is not an object. -/
theorem GetNodeInfo_decode_failure (netGet : String → GetOutcome) (endpoint : String)
    (body : Document) (h : netGet endpoint = GetOutcome.response body) :
    (GetNodeInfo netGet endpoint).1
        = ⟨lastInt "total" body, lastInt "successful" body, lastInt "failed" body⟩ ∧
      (nodesInts "total" body = [] → nodesInts "successful" body = [] →
        nodesInts "failed" body = [] → (GetNodeInfo netGet endpoint).1 = ⟨0, 0, 0⟩) := by
  have ht := unmarshalClusterResponse_field "total" (Or.inl rfl) body
  have hs := unmarshalClusterResponse_field "successful" (Or.inr (Or.inl rfl)) body
  have hf := unmarshalClusterResponse_field "failed" (Or.inr (Or.inr rfl)) body
  have hne1 : ("successful" : String) ≠ "total" := by decide
  have hne2 : ("failed" : String) ≠ "total" := by decide
  have hne3 : ("failed" : String) ≠ "successful" := by decide
  simp only [NodeInfo.field, hne1, hne2, hne3, if_true, if_false] at ht hs hf
  have hr : (GetNodeInfo netGet endpoint).1
      = (unmarshalClusterResponse ClusterResponse.zero body).1.Node := by
    simp only [GetNodeInfo, h]
  have hmain : (GetNodeInfo netGet endpoint).1
      = ⟨lastInt "total" body, lastInt "successful" body, lastInt "failed" body⟩ := by
    rw [hr, ← ht, ← hs, ← hf]
  refine ⟨hmain, ?_⟩
  intro h1 h2 h3
  rw [hmain]
  simp [lastInt, h1, h2, h3, lastOr]

/-- Witness of C8: a body whose `_nodes` member is a string fails to decode
and gives the zero result. -/
theorem GetNodeInfo_decode_failure_witness :
    (unmarshalClusterResponse ClusterResponse.zero
        (Document.json (Json.obj [("_nodes", Json.str "oops")]))).2 = true ∧
      (GetNodeInfo (fun _ => GetOutcome.response
        (Document.json (Json.obj [("_nodes", Json.str "oops")]))) "10.0.0.1:9200").1
        = ⟨0, 0, 0⟩ :=
  ⟨rfl, (GetNodeInfo_decode_failure
    (fun _ => GetOutcome.response (Document.json (Json.obj [("_nodes", Json.str "oops")])))
    "10.0.0.1:9200" (Document.json (Json.obj [("_nodes", Json.str "oops")])) rfl).2
      rfl rfl rfl⟩

/-- Counterexample to C6 as stated: on a readable file that is malformed JSON
LoadConfig returns a descriptor and no error; and when the file holds a
complete object followed by text that is not JSON, the caller does not skip
it: the node of the object is probed. -/
theorem LoadConfig_malformed_counterexample :
    LoadConfig (fun _ => Except.ok ⟨Document.malformed, false⟩) "conf/bad.json"
        = Except.ok ⟨"", []⟩ ∧
      Stream.wellFormed ⟨clusterFile "c1" ["10.0.0.1:9200"], true⟩ = false ∧
      LoadConfig (fun _ => Except.ok ⟨clusterFile "c1" ["10.0.0.1:9200"], true⟩)
        "conf/bad.json" = Except.ok ⟨"c1", ["10.0.0.1:9200"]⟩ ∧
      (UpdateElasticSearchStatus "conf/" Proc.start
        [(⟨fun _ => DirOutcome.entries [⟨"bad.json", false⟩],
            fun _ => Except.ok ⟨clusterFile "c1" ["10.0.0.1:9200"], true⟩,
            fun _ => GetOutcome.error "connection refused"⟩, Action.tick),
          (⟨fun _ => DirOutcome.entries [⟨"bad.json", false⟩],
            fun _ => Except.ok ⟨clusterFile "c1" ["10.0.0.1:9200"], true⟩,
            fun _ => GetOutcome.error "connection refused"⟩, Action.go 0),
          (⟨fun _ => DirOutcome.entries [⟨"bad.json", false⟩],
            fun _ => Except.ok ⟨clusterFile "c1" ["10.0.0.1:9200"], true⟩,
            fun _ => GetOutcome.error "connection refused"⟩, Action.go 0)]).events
        = [Event.listDir "conf/", Event.logCheckFile "bad.json",
            Event.openFile "conf/bad.json", Event.get "10.0.0.1:9200",
            Event.logGetFailed "connection refused"] :=
  ⟨rfl, rfl, rfl, rfl⟩

/-- C6 (amended): for the goroutine of a directory entry that is a plain file.
When the file cannot be opened, LoadConfig fails with the error of the open
and the goroutine ends after logging: it launches no UpdateNode, so no node is
probed and no gauge written. When the file opens, LoadConfig returns no error,
whatever the content: the descriptor is what the decoder stored from the first
JSON value of the file, and one UpdateNode is launched per node of it,
whatever follows that value. When the first value cannot be read or is not an
object, the descriptor is empty and again no UpdateNode is launched. When the
first value is the encoding of a name and a node list, one UpdateNode is
launched per node of that list. -/
theorem LoadConfig_failure_skips_cluster (w : World) (targetFolder : String) (p : Proc)
    (i : Nat) (file : FileInfo) (hlife : p.life = Life.running)
    (hi : p.pool[i]? = some (Task.file file)) (hfile : file.IsDir = false) :
    (∀ err, w.openFile (targetFolder ++ file.Name) = Except.error err →
      LoadConfig w.openFile (targetFolder ++ file.Name) = Except.error err ∧
      p.step targetFolder w (Action.go i)
        = { p with
            events := p.events ++ [Event.logCheckFile file.Name,
              Event.openFile (targetFolder ++ file.Name), Event.logLoadFailed file.Name err]
            pool := p.pool.eraseIdx i ++ [] }) ∧
    (∀ content, w.openFile (targetFolder ++ file.Name) = Except.ok content →
      LoadConfig w.openFile (targetFolder ++ file.Name)
        = Except.ok (decodeClusterInfo ClusterInfo.zero content.first).1 ∧
      p.step targetFolder w (Action.go i)
        = { p with
            events := p.events ++ [Event.logCheckFile file.Name,
              Event.openFile (targetFolder ++ file.Name)]
            pool := p.pool.eraseIdx i ++
              (decodeClusterInfo ClusterInfo.zero content.first).1.Nodes.map
                (fun node => Task.node node
                  (decodeClusterInfo ClusterInfo.zero content.first).1.Name) }) ∧
    (∀ content, w.openFile (targetFolder ++ file.Name) = Except.ok content →
      (∀ kvs, content.first ≠ Document.json (Json.obj kvs)) →
      LoadConfig w.openFile (targetFolder ++ file.Name) = Except.ok ⟨"", []⟩ ∧
      p.step targetFolder w (Action.go i)
        = { p with
            events := p.events ++ [Event.logCheckFile file.Name,
              Event.openFile (targetFolder ++ file.Name)]
            pool := p.pool.eraseIdx i ++ [] }) ∧
    (∀ content n ns, w.openFile (targetFolder ++ file.Name) = Except.ok content →
      content.first = clusterFile n ns →
      p.step targetFolder w (Action.go i)
        = { p with
            events := p.events ++ [Event.logCheckFile file.Name,
              Event.openFile (targetFolder ++ file.Name)]
            pool := p.pool.eraseIdx i ++ ns.map (fun node => Task.node node n) }) := by
  have hstep : p.step targetFolder w (Action.go i)
      = { p with events := p.events ++ (checkFile w targetFolder file).1
                 pool := p.pool.eraseIdx i ++ (checkFile w targetFolder file).2 } := by
    simp [Proc.step, hlife, runTask, hi]
  refine ⟨?_, ?_, ?_, ?_⟩
  · intro err h
    have hl : LoadConfig w.openFile (targetFolder ++ file.Name) = Except.error err := by
      simp [LoadConfig, h]
    refine ⟨hl, ?_⟩
    rw [hstep]
    simp [checkFile, hfile, hl]
  · intro content h
    have hl : LoadConfig w.openFile (targetFolder ++ file.Name)
        = Except.ok (decodeClusterInfo ClusterInfo.zero content.first).1 := by
      simp [LoadConfig, h]
    refine ⟨hl, ?_⟩
    rw [hstep]
    simp [checkFile, hfile, hl]
  · intro content h hcontent
    have hz : (decodeClusterInfo ClusterInfo.zero content.first).1 = ClusterInfo.zero := by
      cases hc : content.first with
      | malformed => rfl
      | json v =>
        cases v with
        | obj kvs => exact absurd hc (hcontent kvs)
        | _ => rfl
    have hl : LoadConfig w.openFile (targetFolder ++ file.Name) = Except.ok ⟨"", []⟩ := by
      simp only [LoadConfig, h, hz]
      rfl
    refine ⟨hl, ?_⟩
    rw [hstep]
    simp [checkFile, hfile, hl]
  · intro content n ns h hc
    have hl := LoadConfig_clusterFile w.openFile (targetFolder ++ file.Name) n ns content h hc
    rw [hstep]
    simp [checkFile, hfile, hl]

/-- Witness of C6: the goroutine of a plain file that cannot be opened, and of
one that holds no JSON value. -/
theorem LoadConfig_failure_skips_cluster_witness :
    (LoadConfig (fun _ => Except.error "permission denied") ("conf/" ++ "bad.json")
        = Except.error "permission denied" ∧
      (Proc.step "conf/" ⟨initGlobals, [], [Task.file ⟨"bad.json", false⟩], Life.running⟩
        ⟨fun _ => DirOutcome.entries [], fun _ => Except.error "permission denied",
          fun _ => GetOutcome.error "unreachable"⟩ (Action.go 0)).pool = []) ∧
    (LoadConfig (fun _ => Except.ok ⟨Document.malformed, false⟩) ("conf/" ++ "bad.json")
        = Except.ok ⟨"", []⟩ ∧
      (Proc.step "conf/" ⟨initGlobals, [], [Task.file ⟨"bad.json", false⟩], Life.running⟩
        ⟨fun _ => DirOutcome.entries [], fun _ => Except.ok ⟨Document.malformed, false⟩,
          fun _ => GetOutcome.error "unreachable"⟩ (Action.go 0)).pool = []) :=
  have h1 := (LoadConfig_failure_skips_cluster
    ⟨fun _ => DirOutcome.entries [], fun _ => Except.error "permission denied",
      fun _ => GetOutcome.error "unreachable"⟩ "conf/"
    ⟨initGlobals, [], [Task.file ⟨"bad.json", false⟩], Life.running⟩ 0 ⟨"bad.json", false⟩
    rfl rfl rfl).1 "permission denied" rfl
  have h2 := (LoadConfig_failure_skips_cluster
    ⟨fun _ => DirOutcome.entries [], fun _ => Except.ok ⟨Document.malformed, false⟩,
      fun _ => GetOutcome.error "unreachable"⟩ "conf/"
    ⟨initGlobals, [], [Task.file ⟨"bad.json", false⟩], Life.running⟩ 0 ⟨"bad.json", false⟩
    rfl rfl rfl).2.2.1 ⟨Document.malformed, false⟩ rfl (fun _ h => Document.noConfusion h)
  ⟨⟨h1.1, congrArg Proc.pool h1.2⟩, ⟨h2.1, congrArg Proc.pool h2.2⟩⟩

/-- Counterexample to C7 as stated: when the directory cannot be opened,
GetFileList returns nothing to its caller, the process ends, and so does the
polling loop: the next tick never scans. -/
theorem GetFileList_missing_dir_counterexample :
    GetFileList (fun _ => DirOutcome.openFails "no such file or directory") "conf/"
        = Call.fatal "no such file or directory" ∧
      (UpdateElasticSearchStatus "conf/" Proc.start
        [(⟨fun _ => DirOutcome.openFails "no such file or directory",
            fun _ => Except.error "unused", fun _ => GetOutcome.error "unused"⟩, Action.tick),
          (⟨fun _ => DirOutcome.entries [⟨"c1.json", false⟩],
            fun _ => Except.error "unused", fun _ => GetOutcome.error "unused"⟩,
            Action.tick)]).life = Life.exited ∧
      (UpdateElasticSearchStatus "conf/" Proc.start
        [(⟨fun _ => DirOutcome.openFails "no such file or directory",
            fun _ => Except.error "unused", fun _ => GetOutcome.error "unused"⟩, Action.tick),
          (⟨fun _ => DirOutcome.entries [⟨"c1.json", false⟩],
            fun _ => Except.error "unused", fun _ => GetOutcome.error "unused"⟩,
            Action.tick)]).events = [Event.listDir "conf/"] :=
  ⟨rfl, rfl, rfl⟩

/-- C7 (amended): when the directory opens but its entries cannot be read,
GetFileList returns the error to its caller; the scheduler skips the cycle
(it only lists and logs: no goroutine is launched, so no file is loaded and no
probe issued, and the gauges and package variables are untouched) and goes on:
the next tick scans again. -/
theorem GetFileList_read_error_skips_cycle (w : World) (rest : List (World × Action))
    (targetFolder msg : String) (p : Proc) (hlife : p.life = Life.running)
    (h : w.readDir targetFolder = DirOutcome.readFails msg) :
    GetFileList w.readDir targetFolder = Call.ret (Except.error msg) ∧
      (tick w targetFolder p).globals = p.globals ∧
      (tick w targetFolder p).pool = p.pool ∧
      (tick w targetFolder p).events
        = p.events ++ [Event.listDir targetFolder, Event.logListFailed msg] ∧
      (tick w targetFolder p).life = Life.running ∧
      UpdateElasticSearchStatus targetFolder p ((w, Action.tick) :: rest)
        = UpdateElasticSearchStatus targetFolder (tick w targetFolder p) rest ∧
      (∀ w2, UpdateElasticSearchStatus targetFolder p [(w, Action.tick), (w2, Action.tick)]
        = tick w2 targetFolder (tick w targetFolder p)) := by
  have hl : GetFileList w.readDir targetFolder = Call.ret (Except.error msg) := by
    simp [GetFileList, h]
  have ht : tick w targetFolder p
      = { p with events := p.events ++ [Event.listDir targetFolder, Event.logListFailed msg] } := by
    simp [tick, hl]
  refine ⟨hl, ?_, ?_, ?_, ?_, ?_, ?_⟩
  · rw [ht]
  · rw [ht]
  · rw [ht]
  · rw [ht]; exact hlife
  · simp [UpdateElasticSearchStatus, Proc.step, hlife]
  · intro w2
    have hlife2 : (tick w targetFolder p).life = Life.running := by rw [ht]; exact hlife
    simp [UpdateElasticSearchStatus, Proc.step, hlife, hlife2]

/-- Witness of C7: the configured path is a regular file at the first tick and
a directory with one entry at the second, which launches its goroutine. -/
theorem GetFileList_read_error_skips_cycle_witness :
    (tick ⟨fun _ => DirOutcome.readFails "not a directory", fun _ => Except.error "unused",
        fun _ => GetOutcome.error "unused"⟩ "conf/" Proc.start).events
        = [] ++ [Event.listDir "conf/", Event.logListFailed "not a directory"] ∧
      UpdateElasticSearchStatus "conf/" Proc.start
        [(⟨fun _ => DirOutcome.readFails "not a directory", fun _ => Except.error "unused",
            fun _ => GetOutcome.error "unused"⟩, Action.tick),
          (⟨fun _ => DirOutcome.entries [⟨"c1.json", false⟩], fun _ => Except.error "unused",
            fun _ => GetOutcome.error "unused"⟩, Action.tick)]
        = tick ⟨fun _ => DirOutcome.entries [⟨"c1.json", false⟩],
            fun _ => Except.error "unused", fun _ => GetOutcome.error "unused"⟩ "conf/"
          (tick ⟨fun _ => DirOutcome.readFails "not a directory",
            fun _ => Except.error "unused", fun _ => GetOutcome.error "unused"⟩ "conf/"
            Proc.start) :=
  have h := GetFileList_read_error_skips_cycle
    ⟨fun _ => DirOutcome.readFails "not a directory", fun _ => Except.error "unused",
      fun _ => GetOutcome.error "unused"⟩ [] "conf/" "not a directory" Proc.start rfl rfl
  ⟨h.2.2.2.1, h.2.2.2.2.2.2 _⟩

/-- A family declared with the names `instance` and `cluster` rejects the
label map of UpdateNode, whose keys are `ip` and `cluster`. -/
theorem resolve_declared_instance (v : GaugeVec) (ip clusterName : String)
    (hv : v.variableLabels = ["instance", "cluster"]) :
    v.resolve (nodeLabels ip clusterName) = none := by
  have h1 : ("instance" == "ip") = false := by decide
  have h2 : ("instance" == "cluster") = false := by decide
  simp [GaugeVec.resolve, hv, nodeLabels, labelValues, List.lookup, h1, h2]

/-- With the families as declared at initialisation, UpdateNode on an address
that splits probes the node and then panics in the first `With`. -/
theorem UpdateNode_declared_ok (netGet : String → GetOutcome) (g : Globals)
    (node clusterName ip port : String) (hg : declaredAtInit g)
    (hs : SplitHostPort node = Except.ok (ip, port)) :
    UpdateNode netGet g node clusterName
      = ⟨{ g with prometheusLabels := ["ip", "cluster"] }, (GetNodeInfo netGet node).2,
          Status.panicked⟩ := by
  have hr := resolve_declared_instance g.esConnectivityFailedGauge ip clusterName hg.1
  simp [UpdateNode, hs, hr]

/-- UpdateNode on an address that does not split does nothing. -/
theorem UpdateNode_split_error (netGet : String → GetOutcome) (g : Globals)
    (node clusterName : String) (err : AddrError)
    (hs : SplitHostPort node = Except.error err) :
    UpdateNode netGet g node clusterName = ⟨g, [], Status.returned⟩ := by
  simp [UpdateNode, hs]

/-- The index found by `indexByte` is a position of the byte. -/
theorem indexByte_spec (s : List Char) (c : Char) (i : Nat) (h : indexByte s c = some i) :
    ∃ hi : i < s.length, s[i] = c := by
  unfold indexByte at h
  split at h
  next hlt =>
    have hi : s.indexOf c = i := by simpa using h
    subst hi
    exact ⟨hlt, List.getElem_indexOf hlt⟩
  next => simp at h

/-- The index found by `lastIndex` is a position of the byte. -/
theorem lastIndex_spec (s : List Char) (c : Char) (i : Nat) (h : lastIndex s c = some i) :
    ∃ hi : i < s.length, s[i] = c := by
  unfold lastIndex at h
  cases hj : indexByte s.reverse c with
  | none => simp [hj] at h
  | some j =>
    obtain ⟨hlt, hc⟩ := indexByte_spec s.reverse c j hj
    have hi : s.length - 1 - j = i := by simpa [hj] using h
    have hlen : j < s.length := by simpa using hlt
    rw [List.getElem_reverse] at hc
    subst hi
    exact ⟨by omega, hc⟩

/-- A list is what precedes a position, the element there, and what follows. -/
theorem split_at_index (s : List Char) (i : Nat) (hi : i < s.length) :
    s = s.take i ++ s[i] :: s.drop (i + 1) := by
  rw [← List.drop_eq_getElem_cons hi, List.take_append_drop]

/-- An address that `SplitHostPort` accepts has the form host:port or
`[host]:port`, where host and port are the two strings returned. -/
theorem SplitHostPort_shape (hostport host port : String)
    (h : SplitHostPort hostport = Except.ok (host, port)) :
    hostport.toList = host.toList ++ ':' :: port.toList ∨
      hostport.toList = '[' :: host.toList ++ ']' :: ':' :: port.toList := by
  obtain ⟨s⟩ := hostport
  unfold SplitHostPort at h
  simp only [String.toList] at h
  show s = host.data ++ ':' :: port.data ∨ s = '[' :: host.data ++ ']' :: ':' :: port.data
  cases hl : lastIndex s ':' with
  | none => simp [hl] at h
  | some i =>
    obtain ⟨hi, hci⟩ := lastIndex_spec _ _ _ hl
    have hsplit := split_at_index s i hi
    rw [hci] at hsplit
    simp only [hl] at h
    by_cases hb : s.head? = some '['
    · simp only [hb, if_true] at h
      cases he : indexByte s ']' with
      | none => simp [he] at h
      | some e =>
        obtain ⟨hel, hce⟩ := indexByte_spec _ _ _ he
        simp only [he] at h
        by_cases h1 : e + 1 = s.length
        · simp [h1] at h
        · simp only [h1, if_false] at h
          by_cases h2 : e + 1 = i
          · simp only [h2, if_true] at h
            split at h
            · simp at h
            · split at h
              · simp at h
              · simp only [Except.ok.injEq, Prod.mk.injEq] at h
                obtain ⟨hh, hp⟩ := h
                right
                subst hh hp
                have hse := split_at_index s e hel
                rw [hce, h2] at hse
                have hdrop : s.drop i = ':' :: s.drop (i + 1) := by
                  rw [List.drop_eq_getElem_cons hi, hci]
                have he0 : e ≠ 0 := by
                  intro h0
                  subst h0
                  have : s.head? = some ']' := by
                    rw [List.head?_eq_getElem?, List.getElem?_eq_getElem hel, hce]
                  rw [this] at hb
                  simp at hb
                have htake : s.take e = '[' :: (s.take e).tail := by
                  have hh : (s.take e).head? = some '[' := by
                    rw [List.head?_take, if_neg he0, hb]
                  cases ht : s.take e with
                  | nil =>
                    rw [ht] at hh
                    simp at hh
                  | cons a rest =>
                    rw [ht] at hh
                    simp at hh
                    simp [hh]
                rw [hdrop] at hse
                calc s = s.take e ++ ']' :: ':' :: s.drop (i + 1) := hse
                  _ = ('[' :: (s.take e).tail) ++ ']' :: ':' :: s.drop (i + 1) := by
                      rw [← htake]
                  _ = _ := by simp
          · simp only [h2, if_false] at h
            by_cases h3 : s[e + 1]? = some ':' <;> simp [h3] at h
    · simp only [hb, if_false] at h
      by_cases hc : (indexByte (s.take i) ':').isSome = true
      · simp [hc] at h
      · simp only [hc, if_false] at h
        by_cases ho : (indexByte s '[').isSome = true
        · simp [ho] at h
        · by_cases hcl : (indexByte s ']').isSome = true
          · simp [ho, hcl] at h
          · simp [ho, hcl] at h
            obtain ⟨hh, hp⟩ := h
            left
            subst hh hp
            simpa using hsplit

/-- Counterexample to C9 as stated: the address made of a single colon splits
into an empty host and an empty port, and UpdateNode probes it. -/
theorem UpdateNode_probes_empty_host_counterexample :
    SplitHostPort ":" = Except.ok ("", "") ∧
      (UpdateNode (fun _ => GetOutcome.error "no such host") initGlobals ":" "c1").events
        = [Event.get ":", Event.logGetFailed "no such host"] :=
  ⟨rfl, rfl⟩

/-- C9 (amended): for every node address that `net.SplitHostPort` rejects,
UpdateNode issues no probe and leaves every gauge (indeed every package
variable) unchanged; and every address that UpdateNode passes to GetNodeInfo
is one that `net.SplitHostPort` splits into a host and a port, either of which
may be empty: the address reads host:port or `[host]:port`. -/
theorem UpdateNode_skips_unparsable_address (netGet : String → GetOutcome) (g : Globals)
    (node clusterName : String) :
    (∀ err, SplitHostPort node = Except.error err →
      (UpdateNode netGet g node clusterName).globals = g ∧
      (UpdateNode netGet g node clusterName).events = [] ∧
      (UpdateNode netGet g node clusterName).status = Status.returned) ∧
    (∀ a, Event.get a ∈ (UpdateNode netGet g node clusterName).events →
      ∃ host port, SplitHostPort a = Except.ok (host, port) ∧
        (a.toList = host.toList ++ ':' :: port.toList ∨
          a.toList = '[' :: host.toList ++ ']' :: ':' :: port.toList)) := by
  constructor
  · intro err hs
    simp [UpdateNode_split_error netGet g node clusterName err hs]
  · intro a ha
    cases hs : SplitHostPort node with
    | error err =>
      rw [UpdateNode_split_error netGet g node clusterName err hs] at ha
      simp at ha
    | ok hp =>
      obtain ⟨ip, port⟩ := hp
      have hev : (UpdateNode netGet g node clusterName).events = (GetNodeInfo netGet node).2 := by
        simp only [UpdateNode, hs]
        repeat' split
        all_goals rfl
      rw [hev] at ha
      have hnode := GetNodeInfo_get_event netGet node a ha
      subst hnode
      exact ⟨ip, port, hs, SplitHostPort_shape a ip port hs⟩

/-- Witness of C9: an address without a port is skipped; the address
10.0.0.1:9200 is probed and splits. -/
theorem UpdateNode_skips_unparsable_address_witness :
    ((UpdateNode (fun _ => GetOutcome.error "connection refused") initGlobals
        "localhost" "c1").events = [] ∧
      (UpdateNode (fun _ => GetOutcome.error "connection refused") initGlobals
        "localhost" "c1").status = Status.returned) ∧
    ∃ host port, SplitHostPort "10.0.0.1:9200" = Except.ok (host, port) ∧
      ("10.0.0.1:9200".toList = host.toList ++ ':' :: port.toList ∨
        "10.0.0.1:9200".toList = '[' :: host.toList ++ ']' :: ':' :: port.toList) :=
  ⟨((UpdateNode_skips_unparsable_address (fun _ => GetOutcome.error "connection refused")
      initGlobals "localhost" "c1").1 AddrError.missingPort rfl).2,
    (UpdateNode_skips_unparsable_address (fun _ => GetOutcome.error "connection refused")
      initGlobals "10.0.0.1:9200" "c1").2 "10.0.0.1:9200" (by
        rw [UpdateNode_declared_ok _ initGlobals "10.0.0.1:9200" "c1" "10.0.0.1" "9200"
          ⟨rfl, rfl, rfl⟩ rfl]
        simp [GetNodeInfo])⟩

/-- Had the families been declared with the names `ip` and `cluster`, the
names UpdateNode supplies, UpdateNode would return after replacing exactly the
entry of its label pair in the three families. -/
theorem UpdateNode_declared_ip (netGet : String → GetOutcome) (g : Globals)
    (node clusterName ip port : String)
    (hf : g.esConnectivityFailedGauge.variableLabels = ["ip", "cluster"])
    (hsu : g.esConnectivitySuccessfulGauge.variableLabels = ["ip", "cluster"])
    (ht : g.esConnectivityTotalGauge.variableLabels = ["ip", "cluster"])
    (hs : SplitHostPort node = Except.ok (ip, port)) :
    (UpdateNode netGet g node clusterName).status = Status.returned ∧
      (UpdateNode netGet g node clusterName).globals.esConnectivityFailedGauge
        = g.esConnectivityFailedGauge.set [ip, clusterName] (GetNodeInfo netGet node).1.Failed ∧
      (UpdateNode netGet g node clusterName).globals.esConnectivitySuccessfulGauge
        = g.esConnectivitySuccessfulGauge.set [ip, clusterName]
            (GetNodeInfo netGet node).1.Successful ∧
      (UpdateNode netGet g node clusterName).globals.esConnectivityTotalGauge
        = g.esConnectivityTotalGauge.set [ip, clusterName] (GetNodeInfo netGet node).1.Total := by
  have h1 : ("cluster" == "ip") = false := by decide
  have r : ∀ v : GaugeVec, v.variableLabels = ["ip", "cluster"] →
      v.resolve (nodeLabels ip clusterName) = some [ip, clusterName] := by
    intro v hv
    simp [GaugeVec.resolve, hv, nodeLabels, labelValues, List.lookup, h1]
  have rf := r _ hf
  have rs := r _ hsu
  have rt := r _ ht
  simp [UpdateNode, hs, rf, rs, rt, GaugeVec.set, r]

/-- C10 (evaluation of the code): the families are declared with the names
`instance` and `cluster`, UpdateNode supplies `ip` and `cluster`, so for every
host and cluster name the label lookup fails on each of the three families
(the branch on which `With` panics); reassigning `prometheusLabels` leaves the
declared names as they were. -/
theorem With_label_names_differ (ip clusterName : String) :
    initGlobals.esConnectivityFailedGauge.variableLabels = ["instance", "cluster"] ∧
      initGlobals.esConnectivitySuccessfulGauge.variableLabels = ["instance", "cluster"] ∧
      initGlobals.esConnectivityTotalGauge.variableLabels = ["instance", "cluster"] ∧
      (nodeLabels ip clusterName).map Prod.fst = ["ip", "cluster"] ∧
      initGlobals.esConnectivityFailedGauge.resolve (nodeLabels ip clusterName) = none ∧
      initGlobals.esConnectivitySuccessfulGauge.resolve (nodeLabels ip clusterName) = none ∧
      initGlobals.esConnectivityTotalGauge.resolve (nodeLabels ip clusterName) = none ∧
      declaredAtInit { initGlobals with prometheusLabels := ["ip", "cluster"] } :=
  ⟨rfl, rfl, rfl, rfl, resolve_declared_instance _ ip clusterName rfl,
    resolve_declared_instance _ ip clusterName rfl,
    resolve_declared_instance _ ip clusterName rfl, ⟨rfl, rfl, rfl⟩⟩

/-- C4 (evaluation of the code): with the families as declared at package
initialisation, UpdateNode on an address that splits into host and port
panics after the probe and replaces no entry: the three families are as
before. -/
theorem UpdateNode_panics_before_write (netGet : String → GetOutcome) (g : Globals)
    (node clusterName ip port : String) (hg : declaredAtInit g)
    (hs : SplitHostPort node = Except.ok (ip, port)) :
    (UpdateNode netGet g node clusterName).status = Status.panicked ∧
      (UpdateNode netGet g node clusterName).globals.esConnectivityFailedGauge
        = g.esConnectivityFailedGauge ∧
      (UpdateNode netGet g node clusterName).globals.esConnectivitySuccessfulGauge
        = g.esConnectivitySuccessfulGauge ∧
      (UpdateNode netGet g node clusterName).globals.esConnectivityTotalGauge
        = g.esConnectivityTotalGauge := by
  rw [UpdateNode_declared_ok netGet g node clusterName ip port hg hs]
  exact ⟨rfl, rfl, rfl, rfl⟩

/-- Witness of C4: the first recording of a reachable node after start-up. -/
theorem UpdateNode_panics_before_write_witness :
    (UpdateNode (fun _ => GetOutcome.response (statsBody 3 3 0)) initGlobals
        "10.0.0.1:9200" "c1").status = Status.panicked ∧
      (UpdateNode (fun _ => GetOutcome.response (statsBody 3 3 0)) initGlobals
        "10.0.0.1:9200" "c1").globals.esConnectivityFailedGauge
        = initGlobals.esConnectivityFailedGauge ∧
      (UpdateNode (fun _ => GetOutcome.response (statsBody 3 3 0)) initGlobals
        "10.0.0.1:9200" "c1").globals.esConnectivitySuccessfulGauge
        = initGlobals.esConnectivitySuccessfulGauge ∧
      (UpdateNode (fun _ => GetOutcome.response (statsBody 3 3 0)) initGlobals
        "10.0.0.1:9200" "c1").globals.esConnectivityTotalGauge
        = initGlobals.esConnectivityTotalGauge :=
  UpdateNode_panics_before_write (fun _ => GetOutcome.response (statsBody 3 3 0)) initGlobals
    "10.0.0.1:9200" "c1" "10.0.0.1" "9200" ⟨rfl, rfl, rfl⟩ rfl

/-- With the families as declared at initialisation, every write of a gauge
panics in `With`. -/
theorem writeGauge_declared (g : Globals) (ip clusterName : String) (nodeInfo : NodeInfo)
    (family : Family) (hg : declaredAtInit g) :
    writeGauge (enterWrite g family) (nodeLabels ip clusterName) nodeInfo family = none := by
  cases family with
  | failed =>
    have hr := resolve_declared_instance g.esConnectivityFailedGauge ip clusterName hg.1
    simp [writeGauge, enterWrite, hr]
  | successful =>
    have hr := resolve_declared_instance g.esConnectivitySuccessfulGauge ip clusterName hg.2.1
    simp [writeGauge, enterWrite, hr]
  | total =>
    have hr := resolve_declared_instance g.esConnectivityTotalGauge ip clusterName hg.2.2
    simp [writeGauge, enterWrite, hr]

/-- Entering a write changes no gauge family. -/
theorem enterWrite_gauges (g : Globals) (family : Family) :
    (enterWrite g family).esConnectivityFailedGauge = g.esConnectivityFailedGauge ∧
      (enterWrite g family).esConnectivitySuccessfulGauge = g.esConnectivitySuccessfulGauge ∧
      (enterWrite g family).esConnectivityTotalGauge = g.esConnectivityTotalGauge := by
  cases family <;> exact ⟨rfl, rfl, rfl⟩

/-- With the families as declared at initialisation, no step of the process
changes a gauge family: the tick and the goroutines of files and probes do not
touch them, and a write panics. -/
theorem step_gauges (targetFolder : String) (p : Proc) (w : World) (a : Action)
    (hg : declaredAtInit p.globals) :
    (p.step targetFolder w a).globals.esConnectivityFailedGauge
        = p.globals.esConnectivityFailedGauge ∧
      (p.step targetFolder w a).globals.esConnectivitySuccessfulGauge
        = p.globals.esConnectivitySuccessfulGauge ∧
      (p.step targetFolder w a).globals.esConnectivityTotalGauge
        = p.globals.esConnectivityTotalGauge := by
  unfold Proc.step
  cases hl : p.life with
  | running =>
    cases a with
    | tick =>
      simp only [tick]
      split <;> exact ⟨rfl, rfl, rfl⟩
    | go i =>
      simp only [runTask]
      cases ht : p.pool[i]? with
      | none => exact ⟨rfl, rfl, rfl⟩
      | some t =>
        cases t with
        | file file => exact ⟨rfl, rfl, rfl⟩
        | node node clusterName => exact ⟨rfl, rfl, rfl⟩
        | write ip clusterName nodeInfo family =>
          simp only [writeGauge_declared p.globals ip clusterName nodeInfo family hg]
          exact enterWrite_gauges p.globals family
  | panicked => exact ⟨rfl, rfl, rfl⟩
  | exited => exact ⟨rfl, rfl, rfl⟩

/-- With the families as declared at initialisation, no schedule changes a
gauge family. -/
theorem UpdateElasticSearchStatus_gauges (targetFolder : String)
    (sched : List (World × Action)) (p : Proc) (hg : declaredAtInit p.globals) :
    (UpdateElasticSearchStatus targetFolder p sched).globals.esConnectivityFailedGauge
        = p.globals.esConnectivityFailedGauge ∧
      (UpdateElasticSearchStatus targetFolder p sched).globals.esConnectivitySuccessfulGauge
        = p.globals.esConnectivitySuccessfulGauge ∧
      (UpdateElasticSearchStatus targetFolder p sched).globals.esConnectivityTotalGauge
        = p.globals.esConnectivityTotalGauge := by
  induction sched generalizing p with
  | nil => exact ⟨rfl, rfl, rfl⟩
  | cons wa rest ih =>
    obtain ⟨w, a⟩ := wa
    have hs := step_gauges targetFolder p w a hg
    have hg1 : declaredAtInit (p.step targetFolder w a).globals := by
      unfold declaredAtInit
      rw [hs.1, hs.2.1, hs.2.2]
      exact hg
    have hr := ih (p.step targetFolder w a) hg1
    simp only [UpdateElasticSearchStatus]
    rw [hr.1, hr.2.1, hr.2.2]
    exact hs

/-- The goroutine of UpdateNode, run step by step with nothing in between,
does what the function UpdateNode does. -/
theorem UpdateNode_as_goroutine (targetFolder : String) (w : World) (g : Globals)
    (node clusterName : String) :
    (UpdateElasticSearchStatus targetFolder
        ⟨g, [], [Task.node node clusterName], Life.running⟩
        [(w, Action.go 0), (w, Action.go 0), (w, Action.go 0), (w, Action.go 0)]).globals
        = (UpdateNode w.netGet g node clusterName).globals ∧
      (UpdateElasticSearchStatus targetFolder
        ⟨g, [], [Task.node node clusterName], Life.running⟩
        [(w, Action.go 0), (w, Action.go 0), (w, Action.go 0), (w, Action.go 0)]).events
        = (UpdateNode w.netGet g node clusterName).events ∧
      ((UpdateElasticSearchStatus targetFolder
        ⟨g, [], [Task.node node clusterName], Life.running⟩
        [(w, Action.go 0), (w, Action.go 0), (w, Action.go 0), (w, Action.go 0)]).life
        = Life.panicked ↔ (UpdateNode w.netGet g node clusterName).status = Status.panicked) := by
  cases hs : SplitHostPort node with
  | error err =>
    simp [UpdateElasticSearchStatus, Proc.step, runTask, startNode, UpdateNode, hs]
  | ok hp =>
    obtain ⟨ip, port⟩ := hp
    cases hf : g.esConnectivityFailedGauge.resolve (nodeLabels ip clusterName) with
    | none =>
      simp [UpdateElasticSearchStatus, Proc.step, runTask, startNode, UpdateNode, hs,
        writeGauge, enterWrite, hf]
    | some kf =>
      cases hsu : g.esConnectivitySuccessfulGauge.resolve (nodeLabels ip clusterName) with
      | none =>
        simp [UpdateElasticSearchStatus, Proc.step, runTask, startNode, UpdateNode, hs,
          writeGauge, enterWrite, hf, hsu, Family.next]
      | some ks =>
        cases ht : g.esConnectivityTotalGauge.resolve (nodeLabels ip clusterName) with
        | none =>
          simp [UpdateElasticSearchStatus, Proc.step, runTask, startNode, UpdateNode, hs,
            writeGauge, enterWrite, hf, hsu, ht, Family.next]
        | some kt =>
          simp [UpdateElasticSearchStatus, Proc.step, runTask, startNode, UpdateNode, hs,
            writeGauge, enterWrite, hf, hsu, ht, Family.next]

/-- C5 (evaluation of the code): started from package initialisation, no
schedule of the polling loop and its goroutines, in any world, ever puts a
sample into a gauge; in the scenario of the spec both nodes are probed, the
first write panics, and no gauge holds a sample for either node. -/
theorem scan_cycle_scenario :
    (∀ sched : List (World × Action),
      noSample (UpdateElasticSearchStatus "conf/" Proc.start sched).globals) ∧
      (UpdateElasticSearchStatus "conf/" Proc.start scenarioSchedule).life = Life.panicked ∧
      (UpdateElasticSearchStatus "conf/" Proc.start scenarioSchedule).events
        = [Event.listDir "conf/", Event.logCheckFile "c1.json", Event.openFile "conf/c1.json",
            Event.get "10.0.0.1:9200", Event.readBody,
            Event.get "10.0.0.2:9200", Event.logGetFailed "connection refused"] ∧
      (UpdateElasticSearchStatus "conf/" Proc.start
        scenarioSchedule).globals.esConnectivityFailedGauge.metrics ["10.0.0.1", "c1"] = none ∧
      (UpdateElasticSearchStatus "conf/" Proc.start
        scenarioSchedule).globals.esConnectivitySuccessfulGauge.metrics ["10.0.0.1", "c1"]
        = none ∧
      (UpdateElasticSearchStatus "conf/" Proc.start
        scenarioSchedule).globals.esConnectivityFailedGauge.metrics ["10.0.0.2", "c1"] = none := by
  refine ⟨?_, rfl, rfl, rfl, rfl, rfl⟩
  intro sched key
  have h := UpdateElasticSearchStatus_gauges "conf/" sched Proc.start ⟨rfl, rfl, rfl⟩
  rw [h.1, h.2.1, h.2.2]
  exact ⟨rfl, rfl, rfl⟩

end ESConn
